import Mathlib

/-!
Verification of the local-cache and fetch-orchestration layer of the
WeatherBot application (src/weather_bot_pyside6_v700.py), shallowly
embedded in Lean.

Modelling conventions:
* Python strings are `List Char` (`PyStr`); `pstr` turns a Lean string
  literal into one.
* Python `str.strip` / `str.lower` are `pyStrip` / `pyLower`.
* Epoch timestamps and coordinates (Python floats) are modelled as `ℚ`;
  the `.4f` rounding used for cache keys is exact on rationals and the
  decimal ties that would distinguish round-half-even from
  round-half-up are not representable as binary floats, so the `ℚ`
  model agrees with the source on all inputs the program can see.
* JSON payloads are the inductive `Json`; Python truthiness of a JSON
  value is `Json.truthy`.
* A cache entry `{"ts": ..., "data": ...}` is `CacheEntry`; a missing
  or JSON-null `ts`/`data` field is `none`.  The Python dict
  `Storage.cache` is a function `PyStr → Option CacheEntry`
  (an absent key maps to `none`; an empty dict entry is the entry with
  both fields `none`, which behaves identically in `get_cached`).
-/

/-- Python strings, modelled as lists of characters. -/
abbrev PyStr : Type := List Char

/-- Coerce a Lean string literal to the `PyStr` model. -/
def pstr (s : String) : PyStr := s.data

/-- Python `str.lower()` (on the ASCII letters the program manipulates). -/
def pyLower (s : PyStr) : PyStr := s.map Char.toLower

/-- Python `str.strip()`: drop leading and trailing whitespace. -/
def pyStrip (s : PyStr) : PyStr :=
  ((s.dropWhile Char.isWhitespace).reverse.dropWhile Char.isWhitespace).reverse

/-- JSON values, the payloads stored in the weather cache. -/
inductive Json where
  | null : Json
  | num (q : ℚ) : Json
  | str (s : PyStr) : Json
  | arr (elems : List Json) : Json
  | obj (fields : List (PyStr × Json)) : Json

/-- First binding of a key in a JSON object's field list (Python `dict` lookup;
the objects built by this program never repeat a key). -/
def jfind (k : PyStr) : List (PyStr × Json) → Option Json
  | [] => none
  | kv :: rest => if kv.1 = k then some kv.2 else jfind k rest

/-- Python `d.get(k)` on a JSON value: `none` on non-objects or missing keys. -/
def Json.get (j : Json) (k : PyStr) : Option Json :=
  match j with
  | .obj fields => jfind k fields
  | _ => none

/-- Python truthiness of a JSON value (`if geo:`, `if wx and ...`). -/
def Json.truthy : Json → Bool
  | .null => false
  | .num q => decide (q ≠ 0)
  | .str s => !s.isEmpty
  | .arr elems => !elems.isEmpty
  | .obj fields => !fields.isEmpty

/-- Truthiness of `Optional` payloads (`None` is falsy). -/
def truthyOpt : Option Json → Bool
  | none => false
  | some j => j.truthy

/-- Python `aqi or \x7b\x7d`: the value if truthy, else the empty dict. -/
def pyOrEmpty : Option Json → Json
  | none => Json.obj []
  | some j => if j.truthy then j else Json.obj []

/-- One value of `Storage.cache`: the dict `{"ts": ..., "data": ...}` written by
`set_cached`.  `ts = none` models a missing or null `"ts"` field. -/
structure CacheEntry where
  ts : Option ℚ
  data : Option Json

/-- `Storage.get_cached` (src lines 85-95): `None` when the key is absent, when
the entry's `ts` is falsy (missing, null or zero), or when `ttl_minutes` is
non-zero and the age `(now - ts) / 60` exceeds `ttl_minutes`; otherwise the
entry's `"data"` field. -/
def get_cached (cache : PyStr → Option CacheEntry) (key : PyStr)
    (ttl_minutes : ℕ) (now : ℚ) : Option Json :=
  match cache key with
  | none => none
  | some item =>
    match item.ts with
    | none => none
    | some ts =>
      if ts = 0 then none
      else if ttl_minutes ≠ 0 ∧ (now - ts) / 60 > (ttl_minutes : ℚ) then none
      else item.data

/-- `Storage.set_cached` (src lines 96-98): store the payload under the key
with the current timestamp, overwriting any prior entry. -/
def set_cached (cache : PyStr → Option CacheEntry) (key : PyStr) (data : Json)
    (now : ℚ) : PyStr → Option CacheEntry :=
  fun k => if k = key then some ⟨some now, some data⟩ else cache k

/-- C1: `get_cached` returns absent when no entry exists; for a well-formed
entry (non-zero timestamp `t`, present payload `d`) and a positive TTL it
returns absent exactly when the age `(now - t) / 60` is strictly greater than
the TTL (so the payload is still returned at age exactly `ttl` minutes), and
for `ttl = 0` it returns the payload regardless of age. -/
theorem c1_get_cached_ttl_boundary (cache : PyStr → Option CacheEntry)
    (key : PyStr) (ttl : ℕ) (now t : ℚ) (d : Json) :
    (cache key = none → get_cached cache key ttl now = none)
    ∧ (cache key = some ⟨some t, some d⟩ → t ≠ 0 → 0 < ttl →
        get_cached cache key ttl now =
          if (now - t) / 60 > (ttl : ℚ) then none else some d)
    ∧ (cache key = some ⟨some t, some d⟩ → t ≠ 0 →
        get_cached cache key 0 now = some d) := by
  refine ⟨?_, ?_, ?_⟩
  · intro h
    simp [get_cached, h]
  · intro h ht httl
    simp only [get_cached, h]
    rw [if_neg ht]
    by_cases hage : (now - t) / 60 > (ttl : ℚ)
    · rw [if_pos ⟨Nat.pos_iff_ne_zero.mp httl, hage⟩, if_pos hage]
    · rw [if_neg (fun hc => hage hc.2), if_neg hage]
  · intro h ht
    simp only [get_cached, h]
    rw [if_neg ht]
    simp

/-- Concrete instantiation of `c1_get_cached_ttl_boundary`: with an entry
stored at `t = 100`, TTL 20, the payload is returned at age 19 m 59 s, absent
at age 20 m 01 s, returned at any age for TTL 0, and a missing key is absent. -/
theorem c1_witness :
    get_cached (fun k => if k = pstr "k" then some ⟨some 100, some (Json.num 1)⟩ else none)
      (pstr "k") 20 (100 + 1199) = some (Json.num 1)
    ∧ get_cached (fun k => if k = pstr "k" then some ⟨some 100, some (Json.num 1)⟩ else none)
      (pstr "k") 20 (100 + 1201) = none
    ∧ get_cached (fun k => if k = pstr "k" then some ⟨some 100, some (Json.num 1)⟩ else none)
      (pstr "k") 0 (100 + 999999) = some (Json.num 1)
    ∧ get_cached (fun _ => none) (pstr "k") 20 0 = none := by
  refine ⟨?_, ?_, ?_, ?_⟩
  · have h := (c1_get_cached_ttl_boundary
      (fun k => if k = pstr "k" then some ⟨some 100, some (Json.num 1)⟩ else none)
      (pstr "k") 20 (100 + 1199) 100 (Json.num 1)).2.1 (if_pos rfl) (by norm_num) (by norm_num)
    rw [h, if_neg (by norm_num)]
  · have h := (c1_get_cached_ttl_boundary
      (fun k => if k = pstr "k" then some ⟨some 100, some (Json.num 1)⟩ else none)
      (pstr "k") 20 (100 + 1201) 100 (Json.num 1)).2.1 (if_pos rfl) (by norm_num) (by norm_num)
    rw [h, if_pos (by norm_num)]
  · exact (c1_get_cached_ttl_boundary
      (fun k => if k = pstr "k" then some ⟨some 100, some (Json.num 1)⟩ else none)
      (pstr "k") 0 (100 + 999999) 100 (Json.num 1)).2.2 (if_pos rfl) (by norm_num)
  · exact (c1_get_cached_ttl_boundary (fun _ => none) (pstr "k") 20 0 0 Json.null).1 rfl

/-- C10: an entry whose `"ts"` field is missing, null, or zero is treated as a
cache miss by `get_cached` at every TTL, including TTL 0; the payload is never
returned (and the total function never raises). -/
theorem c10_corrupt_ts_is_miss (cache : PyStr → Option CacheEntry)
    (key : PyStr) (ttl : ℕ) (now : ℚ) (item : CacheEntry)
    (hit : cache key = some item) (hts : item.ts = none ∨ item.ts = some 0) :
    get_cached cache key ttl now = none := by
  rcases hts with h | h <;> simp [get_cached, hit, h]

/-- Concrete instantiation of `c10_corrupt_ts_is_miss`: a zero and a missing
timestamp both yield a miss, at TTL 20 and at the TTL-0 sentinel. -/
theorem c10_witness :
    get_cached (fun _ => some ⟨some 0, some (Json.num 7)⟩) (pstr "k") 20 500 = none
    ∧ get_cached (fun _ => some ⟨none, some (Json.num 7)⟩) (pstr "k") 0 500 = none := by
  constructor
  · exact c10_corrupt_ts_is_miss _ (pstr "k") 20 500 ⟨some 0, some (Json.num 7)⟩ rfl (Or.inr rfl)
  · exact c10_corrupt_ts_is_miss _ (pstr "k") 0 500 ⟨none, some (Json.num 7)⟩ rfl (Or.inl rfl)

/-!
Cache keys (src lines 630, 635, 638 and 661-665).  Coordinates are
interpolated with Python's `:.4f` format, which rounds the value to four
decimal places; on the rationals this is rounding to nearest with ties
broken upward — ties `(2n+1)/20000` are not dyadic, hence not representable
as the binary floats the program actually formats, so the models agree.
-/

/-- The zero-padded four-digit decimal rendering of `m < 10000`. -/
def pad4 (m : ℕ) : PyStr :=
  List.replicate (4 - (Nat.toDigits 10 m).length) '0' ++ Nat.toDigits 10 m

/-- Python `f"{q:.4f}"`: round to four decimal places and render. -/
def fmt4 (q : ℚ) : PyStr :=
  (if q < 0 then ['-'] else []) ++
    Nat.toDigits 10 ((round (q * 10000)).natAbs / 10000) ++
    '.' :: pad4 ((round (q * 10000)).natAbs % 10000)

/-- Geocode cache key (src line 630): `geo::` + the lowercased city
(already stripped by the caller at line 618). -/
def geoKey (city : PyStr) : PyStr := pstr "geo::" ++ pyLower city

/-- Forecast cache key (src line 635): `wx::<lat:.4f>,<lon:.4f>::<units>`. -/
def wxKey (lat lon : ℚ) (units : PyStr) : PyStr :=
  pstr "wx::" ++ fmt4 lat ++ [','] ++ fmt4 lon ++ pstr "::" ++ units

/-- Air-quality cache key (src line 638): `aqi::<lat:.4f>,<lon:.4f>`. -/
def aqiKey (lat lon : ℚ) : PyStr :=
  pstr "aqi::" ++ fmt4 lat ++ [','] ++ fmt4 lon

/-- The geocode key derived from the raw search-box text
(src line 618 strip composed with line 630). -/
def derived_geo_key (text : PyStr) : PyStr := geoKey (pyStrip text)

theorem geoKey_ne_wxKey (c : PyStr) (lat lon : ℚ) (u : PyStr) :
    geoKey c ≠ wxKey lat lon u := by
  intro h
  have h1 : (geoKey c).head? = some 'g' := rfl
  rw [h] at h1
  have h2 : (wxKey lat lon u).head? = some 'w' := rfl
  rw [h2] at h1
  exact absurd (Option.some.inj h1) (by decide)

theorem aqiKey_ne_geoKey (c : PyStr) (lat lon : ℚ) :
    aqiKey lat lon ≠ geoKey c := by
  intro h
  have h1 : (aqiKey lat lon).head? = some 'a' := rfl
  rw [h] at h1
  have h2 : (geoKey c).head? = some 'g' := rfl
  rw [h2] at h1
  exact absurd (Option.some.inj h1) (by decide)

theorem aqiKey_ne_wxKey (lat lon lat' lon' : ℚ) (u : PyStr) :
    aqiKey lat lon ≠ wxKey lat' lon' u := by
  intro h
  have h1 : (aqiKey lat lon).head? = some 'a' := rfl
  rw [h] at h1
  have h2 : (wxKey lat' lon' u).head? = some 'w' := rfl
  rw [h2] at h1
  exact absurd (Option.some.inj h1) (by decide)

/-- C6 counterexample: the coordinates 1.00004 and 1.00006 agree when
truncated to four decimal places (they differ only beyond the fourth
decimal place, `⌊q * 10^4⌋` is equal), yet the `:.4f` interpolation rounds
them apart, so the derived forecast and air-quality cache keys differ —
the claim's truncation reading is false on the code. -/
theorem c6_counterexample :
    (⌊((100004 : ℚ) / 100000) * 10000⌋ = ⌊((100006 : ℚ) / 100000) * 10000⌋)
    ∧ wxKey ((100004 : ℚ) / 100000) 10 (pstr "metric")
        ≠ wxKey ((100006 : ℚ) / 100000) 10 (pstr "metric")
    ∧ aqiKey ((100004 : ℚ) / 100000) 10 ≠ aqiKey ((100006 : ℚ) / 100000) 10 := by
  have h4 : fmt4 ((100004 : ℚ) / 100000) = pstr "1.0000" := by
    have h : round (((100004 : ℚ) / 100000) * 10000) = 10000 := by norm_num [round_eq]
    simp only [fmt4, h]
    rw [if_neg (by norm_num)]
    decide
  have h6 : fmt4 ((100006 : ℚ) / 100000) = pstr "1.0001" := by
    have h : round (((100006 : ℚ) / 100000) * 10000) = 10001 := by norm_num [round_eq]
    simp only [fmt4, h]
    rw [if_neg (by norm_num)]
    decide
  refine ⟨by norm_num, ?_, ?_⟩
  · simp only [wxKey, h4, h6]
    decide
  · simp only [aqiKey, h4, h6]
    decide

/-- C6 amended: the forecast and air-quality cache keys are formed by
rounding each coordinate to four decimal places (Python `:.4f`), not by
truncating; two coordinate pairs whose components have the same sign and
round to the same four-decimal value derive the same forecast key (for a
fixed unit system) and the same air-quality key. -/
theorem c6_keys_round_to_4_decimals (lat₁ lon₁ lat₂ lon₂ : ℚ) (units : PyStr)
    (hlat : round (lat₁ * 10000) = round (lat₂ * 10000))
    (hlon : round (lon₁ * 10000) = round (lon₂ * 10000))
    (hslat : lat₁ < 0 ↔ lat₂ < 0) (hslon : lon₁ < 0 ↔ lon₂ < 0) :
    wxKey lat₁ lon₁ units = wxKey lat₂ lon₂ units
    ∧ aqiKey lat₁ lon₁ = aqiKey lat₂ lon₂ := by
  have hf1 : fmt4 lat₁ = fmt4 lat₂ := by simp [fmt4, hlat, hslat]
  have hf2 : fmt4 lon₁ = fmt4 lon₂ := by simp [fmt4, hlon, hslon]
  exact ⟨by simp [wxKey, hf1, hf2], by simp [aqiKey, hf1, hf2]⟩

/-- Concrete instantiation of `c6_keys_round_to_4_decimals`: 1.00001 and
1.00002 round to the same four-decimal value and share both keys. -/
theorem c6_amended_witness :
    wxKey ((100001 : ℚ) / 100000) 10 (pstr "metric")
      = wxKey ((100002 : ℚ) / 100000) 10 (pstr "metric")
    ∧ aqiKey ((100001 : ℚ) / 100000) 10 = aqiKey ((100002 : ℚ) / 100000) 10 :=
  c6_keys_round_to_4_decimals ((100001 : ℚ) / 100000) 10 ((100002 : ℚ) / 100000) 10
    (pstr "metric") (by norm_num [round_eq]) (by norm_num [round_eq])
    (by norm_num) (by norm_num)

/-- The first character of a string, if any, is not whitespace. -/
def headNotWs (s : PyStr) : Bool :=
  match s.head? with
  | none => true
  | some a => !a.isWhitespace

/-- The last character of a string, if any, is not whitespace. -/
def lastNotWs (s : PyStr) : Bool :=
  match s.getLast? with
  | none => true
  | some a => !a.isWhitespace

theorem dropWhile_append_of_forall_pos {p : Char → Bool} (l r : List Char)
    (h : ∀ c ∈ l, p c = true) : (l ++ r).dropWhile p = r.dropWhile p := by
  induction l with
  | nil => rfl
  | cons a t ih =>
    have ha : p a = true := h a (List.mem_cons_self a t)
    rw [List.cons_append, List.dropWhile_cons_of_pos ha]
    exact ih (fun c hc => h c (List.mem_cons_of_mem a hc))

theorem dropWhile_eq_nil_of_forall_pos {p : Char → Bool} (l : List Char)
    (h : ∀ c ∈ l, p c = true) : l.dropWhile p = [] := by
  have := dropWhile_append_of_forall_pos l [] h
  simpa using this

/-- `str.strip` of a whitespace-padded core returns exactly the core. -/
theorem pyStrip_sandwich (pre suf core : PyStr)
    (hpre : ∀ x ∈ pre, x.isWhitespace = true)
    (hsuf : ∀ x ∈ suf, x.isWhitespace = true)
    (hhead : headNotWs core = true) (hlast : lastNotWs core = true) :
    pyStrip (pre ++ core ++ suf) = core := by
  cases core with
  | nil =>
    have hall : ∀ x ∈ pre ++ ([] : PyStr) ++ suf, x.isWhitespace = true := by
      intro x hx
      rcases List.mem_append.mp hx with h | h
      · exact hpre x (by simpa using h)
      · exact hsuf x h
    unfold pyStrip
    rw [dropWhile_eq_nil_of_forall_pos _ hall]
    rfl
  | cons a t =>
    have ha : a.isWhitespace = false := by
      have h' := hhead
      unfold headNotWs at h'
      simpa using h'
    unfold pyStrip
    rw [List.append_assoc, dropWhile_append_of_forall_pos pre _ hpre,
      List.cons_append, List.dropWhile_cons_of_neg (by simp [ha]),
      ← List.cons_append, List.reverse_append,
      dropWhile_append_of_forall_pos _ _
        (fun x hx => hsuf x (List.mem_reverse.mp hx))]
    rcases hrev : (a :: t).reverse with _ | ⟨b, rb⟩
    · exact absurd (List.reverse_eq_nil_iff.mp hrev) (List.cons_ne_nil a t)
    · have hgl : (a :: t).getLast? = some b := by
        rw [← List.head?_reverse, hrev]
        rfl
      have hb : b.isWhitespace = false := by
        have h' := hlast
        unfold lastNotWs at h'
        rw [hgl] at h'
        simpa using h'
      rw [List.dropWhile_cons_of_neg (by simp [hb]), ← hrev,
        List.reverse_reverse]

/-- C7: two search inputs that differ only in letter case and in leading or
trailing whitespace (formally: whitespace affixes around case-equivalent
cores) derive the same geocode cache key, and that key is `geo::` followed
by the stripped, lowercased name. -/
theorem c7_geo_key_normalization
    (pre₁ suf₁ pre₂ suf₂ core₁ core₂ : PyStr)
    (hp₁ : ∀ x ∈ pre₁, x.isWhitespace = true)
    (hs₁ : ∀ x ∈ suf₁, x.isWhitespace = true)
    (hp₂ : ∀ x ∈ pre₂, x.isWhitespace = true)
    (hs₂ : ∀ x ∈ suf₂, x.isWhitespace = true)
    (hh₁ : headNotWs core₁ = true) (hl₁ : lastNotWs core₁ = true)
    (hh₂ : headNotWs core₂ = true) (hl₂ : lastNotWs core₂ = true)
    (hcase : pyLower core₁ = pyLower core₂) :
    derived_geo_key (pre₁ ++ core₁ ++ suf₁) = derived_geo_key (pre₂ ++ core₂ ++ suf₂)
    ∧ derived_geo_key (pre₁ ++ core₁ ++ suf₁) = pstr "geo::" ++ pyLower core₁ := by
  have e₁ : pyStrip (pre₁ ++ core₁ ++ suf₁) = core₁ :=
    pyStrip_sandwich pre₁ suf₁ core₁ hp₁ hs₁ hh₁ hl₁
  have e₂ : pyStrip (pre₂ ++ core₂ ++ suf₂) = core₂ :=
    pyStrip_sandwich pre₂ suf₂ core₂ hp₂ hs₂ hh₂ hl₂
  constructor
  · simp only [derived_geo_key, geoKey]
    rw [e₁, e₂, hcase]
  · simp only [derived_geo_key, geoKey]
    rw [e₁]

/-- Concrete instantiation of `c7_geo_key_normalization`: `"  Paris "` and
`"pARIS"` derive the same geocode key, namely `geo::paris`. -/
theorem c7_witness :
    derived_geo_key (pstr "  Paris ") = derived_geo_key (pstr "pARIS")
    ∧ derived_geo_key (pstr "  Paris ") = pstr "geo::paris" := by
  have heq₁ : pstr "  Paris " = [' ', ' '] ++ pstr "Paris" ++ [' '] := by decide
  have heq₂ : pstr "pARIS" = ([] : PyStr) ++ pstr "pARIS" ++ ([] : PyStr) := by decide
  have h := c7_geo_key_normalization [' ', ' '] [' '] [] [] (pstr "Paris") (pstr "pARIS")
    (by decide) (by decide) (by decide) (by decide) (by decide) (by decide)
    (by decide) (by decide) (by decide)
  constructor
  · rw [heq₁, heq₂]
    exact h.1
  · rw [heq₁, h.2]
    decide

/-!
History and favorites registry (src lines 64-84).  `save_history` /
`save_settings` dump the in-memory list to disk after each mutation; the
`disk` field mirrors the persisted copy.
-/

/-- `Storage.history` together with its persisted copy in history.json. -/
structure HistoryStore where
  history : List PyStr
  disk : List PyStr

/-- The list transformation inside `Storage.add_history` (src lines 68-70):
drop case-insensitive matches, insert the stripped city at the front,
truncate to 20. -/
def add_history_list (history : List PyStr) (city : PyStr) : List PyStr :=
  (pyStrip city ::
    history.filter (fun x => decide (pyLower x ≠ pyLower (pyStrip city)))).take 20

/-- `Storage.add_history` (src lines 64-71): no-op on blank input, else
update the list and persist it. -/
def HistoryStore.add_history (s : HistoryStore) (city : PyStr) : HistoryStore :=
  if pyStrip city = [] then s
  else { history := add_history_list s.history city,
         disk := add_history_list s.history city }

/-- The spec's history scenario: insert `"Paris"`, then `"paris"`, then 25
distinct one-letter names, starting from an empty store. -/
def parisScenario : HistoryStore :=
  ((pstr "abcdefghijklmnopqrstuvwxy").map (fun c => [c])).foldl
    HistoryStore.add_history
    (HistoryStore.add_history
      (HistoryStore.add_history ⟨[], []⟩ (pstr "Paris")) (pstr "paris"))

/-- C8: `add_history` is a no-op on blank input; on non-blank input the new
list is at most 20 long, starts with the stripped city, contains no other
entry equal to it case-insensitively, and is persisted; and the
Paris/paris/25-names scenario leaves `"Paris"` absent with the list capped
at 20. -/
theorem c8_add_history (s : HistoryStore) (city : PyStr) :
    (pyStrip city = [] → s.add_history city = s)
    ∧ (pyStrip city ≠ [] →
        (s.add_history city).history.length ≤ 20
        ∧ (s.add_history city).history.head? = some (pyStrip city)
        ∧ (∀ x ∈ (s.add_history city).history,
            pyLower x = pyLower (pyStrip city) → x = pyStrip city)
        ∧ (s.add_history city).disk = (s.add_history city).history)
    ∧ (pstr "Paris" ∉ parisScenario.history ∧ parisScenario.history.length ≤ 20) := by
  refine ⟨?_, ?_, by decide⟩
  · intro h
    simp [HistoryStore.add_history, h]
  · intro h
    have hd : s.add_history city =
        ⟨add_history_list s.history city, add_history_list s.history city⟩ := by
      simp [HistoryStore.add_history, h]
    rw [hd]
    refine ⟨List.length_take_le _ _, ?_, ?_, rfl⟩
    · simp only [add_history_list, List.take_succ_cons]
      rfl
    · intro x hx hlow
      rcases List.mem_cons.mp (List.take_subset _ _ hx) with h1 | h1
      · exact h1
      · exact absurd hlow (of_decide_eq_true (List.mem_filter.mp h1).2)

/-- Concrete instantiation of `c8_add_history`: adding `" Paris "` to a
one-entry store puts the stripped `"Paris"` at the front, and blank input
leaves the store untouched. -/
theorem c8_witness :
    ((HistoryStore.mk [pstr "b"] [pstr "b"]).add_history (pstr " Paris ")).history.head?
      = some (pstr "Paris")
    ∧ (HistoryStore.mk [] []).add_history (pstr "   ") = HistoryStore.mk [] [] := by
  constructor
  · have h := ((c8_add_history ⟨[pstr "b"], [pstr "b"]⟩ (pstr " Paris ")).2.1
      (by decide)).2.1
    rw [h]
    decide
  · exact (c8_add_history ⟨[], []⟩ (pstr "   ")).1 (by decide)

/-- The favorites list inside `Storage.settings` with its persisted copy in
settings.json. -/
structure FavStore where
  favorites : List PyStr
  disk : List PyStr

/-- `Storage.add_favorite` (src lines 75-80): insert at the front only when
no exact-string match is present, truncate to 20, persist. -/
def FavStore.add_favorite (s : FavStore) (city : PyStr) : FavStore :=
  { favorites := (if city ∈ s.favorites then s.favorites else city :: s.favorites).take 20,
    disk := (if city ∈ s.favorites then s.favorites else city :: s.favorites).take 20 }

/-- `Storage.remove_favorite` (src lines 81-84): keep exactly the entries
different from the given string, persist. -/
def FavStore.remove_favorite (s : FavStore) (city : PyStr) : FavStore :=
  { favorites := s.favorites.filter (fun c => decide (c ≠ city)),
    disk := s.favorites.filter (fun c => decide (c ≠ city)) }

/-- C9: `add_favorite` caps the list at 20 and inserts at the front exactly
when no exact-string match is present (so `"Paris"` then `"paris"` yields two
distinct entries); `remove_favorite` filters out exactly the entries equal to
the given string; both persist the mutated list immediately. -/
theorem c9_favorites_exact_match (s : FavStore) (city : PyStr) :
    ((s.add_favorite city).favorites.length ≤ 20)
    ∧ (city ∈ s.favorites → (s.add_favorite city).favorites = s.favorites.take 20)
    ∧ (city ∉ s.favorites → (s.add_favorite city).favorites = (city :: s.favorites).take 20)
    ∧ (∀ x, x ∈ (s.remove_favorite city).favorites ↔ x ∈ s.favorites ∧ x ≠ city)
    ∧ ((s.add_favorite city).disk = (s.add_favorite city).favorites)
    ∧ ((s.remove_favorite city).disk = (s.remove_favorite city).favorites)
    ∧ ((FavStore.add_favorite (FavStore.add_favorite ⟨[], []⟩ (pstr "Paris"))
          (pstr "paris")).favorites = [pstr "paris", pstr "Paris"]) := by
  refine ⟨List.length_take_le _ _, ?_, ?_, ?_, rfl, rfl, by decide⟩
  · intro h
    simp [FavStore.add_favorite, h]
  · intro h
    simp [FavStore.add_favorite, h]
  · intro x
    simp [FavStore.remove_favorite, List.mem_filter]

/-- Concrete instantiation of `c9_favorites_exact_match`: adding `"paris"`
to `["Paris"]` inserts a second, distinct entry, and removing `"paris"`
filters exactly it. -/
theorem c9_witness :
    ((FavStore.mk [pstr "Paris"] [pstr "Paris"]).add_favorite (pstr "paris")).favorites
      = (pstr "paris" :: [pstr "Paris"]).take 20
    ∧ (pstr "Paris" ∈
        ((FavStore.mk [pstr "paris", pstr "Paris"] []).remove_favorite (pstr "paris")).favorites
        ↔ (pstr "Paris" ∈ [pstr "paris", pstr "Paris"] ∧ pstr "Paris" ≠ pstr "paris")) := by
  constructor
  · exact (c9_favorites_exact_match ⟨[pstr "Paris"], [pstr "Paris"]⟩
      (pstr "paris")).2.2.1 (by decide)
  · exact (c9_favorites_exact_match ⟨[pstr "paris", pstr "Paris"], []⟩
      (pstr "paris")).2.2.2.1 (pstr "Paris")

/-!
Fetch orchestration (src lines 253-277 and 617-683).  The embedding keeps
the storage-visible behaviour of `WeatherApp.fetch_and_render`,
`FetchWorker.run`, `on_fetch_done` and `on_fetch_failed`; UI rendering is
dropped.  `Decision` records whether a call renders synchronously from the
cache, dispatches a `FetchWorker`, does nothing (blank input), or falls
into the `except` branch (malformed cached geocode).
-/

/-- The settings fields the orchestrator reads (`units`, `show_aqi`,
`cache_ttl_minutes` with their `settings.get` defaults applied). -/
structure Settings where
  units : PyStr
  show_aqi : Bool
  cache_ttl_minutes : ℕ

/-- The `Storage` state visible to the orchestrator. -/
structure Storage where
  settings : Settings
  cache : PyStr → Option CacheEntry
  history : List PyStr

/-- Src line 629: `ttl = 0 if force_refresh else settings.get("cache_ttl_minutes", 20)`. -/
def effective_ttl (force_refresh : Bool) (cache_ttl_minutes : ℕ) : ℕ :=
  if force_refresh then 0 else cache_ttl_minutes

/-- The local variables `geo`, `wx`, `aqi` after the cache-lookup block
(src lines 631-639), or `err` when the cached geocode is truthy but has no
numeric `lat`/`lon` (the key interpolation at line 635 raises and control
jumps to the `except` at line 648). -/
inductive LookupState where
  | err : LookupState
  | ok (geo wx aqi : Option Json) : LookupState

/-- The cache-lookup block of `fetch_and_render` (src lines 630-639). -/
def cache_lookups (st : Storage) (city : PyStr) (force_refresh : Bool)
    (now : ℚ) : LookupState :=
  match get_cached st.cache (geoKey city) 1440 now with
  | none => LookupState.ok none none none
  | some geo =>
    if geo.truthy then
      match geo.get (pstr "lat"), geo.get (pstr "lon") with
      | some (Json.num lat), some (Json.num lon) =>
        LookupState.ok (some geo)
          (get_cached st.cache (wxKey lat lon st.settings.units)
            (effective_ttl force_refresh st.settings.cache_ttl_minutes) now)
          (if st.settings.show_aqi
            then get_cached st.cache (aqiKey lat lon) 60 now else none)
      | _, _ => LookupState.err
    else LookupState.ok (some geo) none none

/-- The observable outcome of one `fetch_and_render` call. -/
inductive Decision where
  | noop : Decision
  | cacheHit (geo wx aqi : Json) : Decision
  | dispatch (city units : PyStr) (show_aqi : Bool) : Decision
  | error : Decision

/-- `WeatherApp.fetch_and_render` (src lines 617-647): strip the search
text (no-op when blank), perform the cache lookups, and either call
`on_fetch_done(geo, wx, aqi or \x7b\x7d)` synchronously when
`wx and (aqi or not show_aqi)` holds, or start a `FetchWorker`. -/
def fetch_and_render (st : Storage) (text : PyStr) (force_refresh : Bool)
    (now : ℚ) : Decision :=
  if pyStrip text = [] then Decision.noop
  else
    match cache_lookups st (pyStrip text) force_refresh now with
    | LookupState.err => Decision.error
    | LookupState.ok geo wx aqi =>
      if truthyOpt wx && (truthyOpt aqi || !st.settings.show_aqi) then
        Decision.cacheHit (geo.getD Json.null) (wx.getD Json.null) (pyOrEmpty aqi)
      else Decision.dispatch (pyStrip text) st.settings.units st.settings.show_aqi

/-- A response of one external HTTP service call: a 200 with a JSON body,
or a non-200 status with the best-effort extracted message. -/
inductive HttpResp where
  | ok (body : Json) : HttpResp
  | status (code : ℕ) (msg : PyStr) : HttpResp

/-- The error taxonomy raised by `http_get` and `FetchWorker.run`:
not-found, non-200 service error, or malformed payload data (the
`KeyError`/`float()` failures inside the worker). -/
inductive FetchErr where
  | placeNotFound : FetchErr
  | serviceError (code : ℕ) (msg : PyStr) : FetchErr
  | badData : FetchErr

/-- `http_get` (src lines 100-110): 200 returns the body, 404 raises
not-found, anything else raises a service error carrying status and
message. -/
def http_get : HttpResp → Except FetchErr Json
  | HttpResp.ok body => Except.ok body
  | HttpResp.status code msg =>
    if code = 404 then Except.error FetchErr.placeNotFound
    else Except.error (FetchErr.serviceError code msg)

/-- The geo dict emitted by the worker (src line 275):
`{"name": item.get("name",""), "country": item.get("country",""),
"lat": lat, "lon": lon}`. -/
def geo_payload (item : Json) (lat lon : ℚ) : Json :=
  Json.obj [(pstr "name", (item.get (pstr "name")).getD (Json.str [])),
            (pstr "country", (item.get (pstr "country")).getD (Json.str [])),
            (pstr "lat", Json.num lat), (pstr "lon", Json.num lon)]

/-- Which signal `FetchWorker.run` emits: `done(geo, wx, aqi)` or
`failed(message)` (the message abstracted to its error kind). -/
inductive WorkerResult where
  | done (geo wx aqi : Json) : WorkerResult
  | failed (e : FetchErr) : WorkerResult

/-- `FetchWorker.run` (src lines 261-277) as a function of the three
service responses: geocode failure or empty/falsy result fails with
not-found; a malformed first geocode item fails with `badData` (the
Python `float(item["lat"])` raises); forecast failure propagates; an
air-quality failure is swallowed and replaced by the empty dict. -/
def worker_run (geoResp wxResp aqiResp : HttpResp) (show_aqi : Bool) :
    WorkerResult :=
  match http_get geoResp with
  | Except.error e => WorkerResult.failed e
  | Except.ok g =>
    if g.truthy then
      match g with
      | Json.arr (item :: _) =>
        (match item.get (pstr "lat"), item.get (pstr "lon") with
          | some (Json.num lat), some (Json.num lon) =>
            (match http_get wxResp with
              | Except.error e => WorkerResult.failed e
              | Except.ok wx =>
                WorkerResult.done (geo_payload item lat lon) wx
                  (if show_aqi then
                    (match http_get aqiResp with
                      | Except.ok a => a
                      | Except.error _ => Json.obj [])
                  else Json.obj []))
          | _, _ => WorkerResult.failed FetchErr.badData)
      | _ => WorkerResult.failed FetchErr.badData
    else WorkerResult.failed FetchErr.placeNotFound

/-- `Storage.add_history` (src lines 64-71) as a plain list update,
including the blank-input guard. -/
def add_history_full (history : List PyStr) (city : PyStr) : List PyStr :=
  if pyStrip city = [] then history else add_history_list history city

/-- The storage mutations of `on_fetch_done` (src lines 657-666): cache the
geocode under the current text's key, the forecast under the coordinate
key, the air-quality only when `show_aqi` and the payload is truthy, then
record the city in the history.  When the geo dict lacks numeric
coordinates the `f-string` at line 663 raises after the geocode write. -/
def on_fetch_done (st : Storage) (text : PyStr) (geo wx aqi : Json)
    (now : ℚ) : Storage :=
  let c1 := set_cached st.cache (geoKey (pyStrip text)) geo now
  match geo.get (pstr "lat"), geo.get (pstr "lon") with
  | some (Json.num lat), some (Json.num lon) =>
    let c2 := set_cached c1 (wxKey lat lon st.settings.units) wx now
    let c3 := if st.settings.show_aqi && aqi.truthy
      then set_cached c2 (aqiKey lat lon) aqi now else c2
    { st with cache := c3,
              history := add_history_full st.history (pyStrip text) }
  | _, _ => { st with cache := c1 }

/-- Storage effect of a worker completion: `on_fetch_failed`
(src lines 679-683) touches no storage; `on_fetch_done` applies the
mutations above. -/
def apply_worker_result (st : Storage) (text : PyStr) (r : WorkerResult)
    (now : ℚ) : Storage :=
  match r with
  | WorkerResult.failed _ => st
  | WorkerResult.done geo wx aqi => on_fetch_done st text geo wx aqi now

theorem get_cached_eval (cache : PyStr → Option CacheEntry) (key : PyStr)
    (ttl : ℕ) (now t : ℚ) (d : Json)
    (h : cache key = some ⟨some t, some d⟩) (ht : t ≠ 0)
    (hage : ¬(ttl ≠ 0 ∧ (now - t) / 60 > (ttl : ℚ))) :
    get_cached cache key ttl now = some d := by
  simp only [get_cached, h]
  rw [if_neg ht, if_neg hage]

theorem get_cached_none (cache : PyStr → Option CacheEntry) (key : PyStr)
    (ttl : ℕ) (now : ℚ) (h : cache key = none) :
    get_cached cache key ttl now = none := by
  simp [get_cached, h]

theorem cache_lookups_eval (st : Storage) (city : PyStr) (force_refresh : Bool)
    (now : ℚ) (geo : Json) (lat lon : ℚ)
    (hgeo : get_cached st.cache (geoKey city) 1440 now = some geo)
    (hgt : geo.truthy = true)
    (hlat : geo.get (pstr "lat") = some (Json.num lat))
    (hlon : geo.get (pstr "lon") = some (Json.num lon)) :
    cache_lookups st city force_refresh now =
      LookupState.ok (some geo)
        (get_cached st.cache (wxKey lat lon st.settings.units)
          (effective_ttl force_refresh st.settings.cache_ttl_minutes) now)
        (if st.settings.show_aqi
          then get_cached st.cache (aqiKey lat lon) 60 now else none) := by
  simp only [cache_lookups, hgeo, hgt, hlat, hlon, if_true]

/-- C2: force-refresh performs the forecast lookup with TTL 0, and TTL 0
means "no expiry check", so whenever the geocode is cached within 1440
minutes, a truthy forecast entry of any age is cached under the coordinate
key, and air-quality is cached within 60 minutes or not required, the
force-refresh call renders the cached snapshot synchronously and dispatches
no `FetchWorker` — force-refresh does not bypass the cache read. -/
theorem c2_force_refresh_hits_cache (st : Storage) (text : PyStr) (now t : ℚ)
    (geo wx : Json) (lat lon : ℚ)
    (hcity : pyStrip text ≠ [])
    (hgeo : get_cached st.cache (geoKey (pyStrip text)) 1440 now = some geo)
    (hgt : geo.truthy = true)
    (hlat : geo.get (pstr "lat") = some (Json.num lat))
    (hlon : geo.get (pstr "lon") = some (Json.num lon))
    (hwx : st.cache (wxKey lat lon st.settings.units) = some ⟨some t, some wx⟩)
    (ht : t ≠ 0)
    (hwxt : wx.truthy = true)
    (haqi : st.settings.show_aqi = false
      ∨ ∃ a, get_cached st.cache (aqiKey lat lon) 60 now = some a
          ∧ a.truthy = true) :
    (∀ n : ℕ, effective_ttl true n = 0)
    ∧ fetch_and_render st text true now
      = Decision.cacheHit geo wx
          (pyOrEmpty (if st.settings.show_aqi
            then get_cached st.cache (aqiKey lat lon) 60 now else none)) := by
  refine ⟨fun n => rfl, ?_⟩
  have hwx0 : get_cached st.cache (wxKey lat lon st.settings.units)
      (effective_ttl true st.settings.cache_ttl_minutes) now = some wx :=
    get_cached_eval _ _ _ now t wx hwx ht (by simp [effective_ttl])
  have hlk := cache_lookups_eval st (pyStrip text) true now geo lat lon
    hgeo hgt hlat hlon
  rw [hwx0] at hlk
  cases hshow : st.settings.show_aqi with
  | false =>
    simp only [fetch_and_render, if_neg hcity, hlk, hshow]
    simp [truthyOpt, hwxt]
  | true =>
    rcases haqi with h | ⟨a, ha, hat⟩
    · rw [hshow] at h
      simp at h
    · simp only [fetch_and_render, if_neg hcity, hlk, hshow, if_true, ha]
      simp [truthyOpt, hwxt, hat, pyOrEmpty]

/-- Witness fixtures: a cached geocode for Tehran, a stale forecast entry
(timestamp 1), air-quality disabled. -/
def geoW : Json :=
  Json.obj [(pstr "name", Json.str (pstr "Tehran")),
            (pstr "lat", Json.num 35), (pstr "lon", Json.num 51)]

def wxW : Json := Json.obj [(pstr "cnt", Json.num 40)]

def cacheW : PyStr → Option CacheEntry := fun k =>
  if k = geoKey (pstr "tehran") then some ⟨some 999940, some geoW⟩
  else if k = wxKey 35 51 (pstr "metric") then some ⟨some 1, some wxW⟩
  else none

def stW : Storage := ⟨⟨pstr "metric", false, 20⟩, cacheW, []⟩

/-- Concrete instantiation of `c2_force_refresh_hits_cache`: at time 10^6,
with a one-minute-old geocode and a forecast entry written at epoch second 1
(about 19 years stale), the force-refresh call is a synchronous cache hit. -/
theorem c2_witness :
    fetch_and_render stW (pstr "Tehran") true 1000000
      = Decision.cacheHit geoW wxW (Json.obj []) := by
  have hgeo : get_cached stW.cache (geoKey (pyStrip (pstr "Tehran"))) 1440 1000000
      = some geoW := by
    apply get_cached_eval
    · have hk : geoKey (pyStrip (pstr "Tehran")) = geoKey (pstr "tehran") := by decide
      show cacheW (geoKey (pyStrip (pstr "Tehran"))) = _
      rw [hk]
      unfold cacheW
      rw [if_pos rfl]
    · norm_num
    · intro hc
      exact absurd hc.2 (by norm_num)
  have hwx : stW.cache (wxKey 35 51 stW.settings.units) = some ⟨some 1, some wxW⟩ := by
    show cacheW (wxKey 35 51 (pstr "metric")) = _
    unfold cacheW
    rw [if_neg (fun h => geoKey_ne_wxKey (pstr "tehran") 35 51 (pstr "metric") h.symm),
      if_pos rfl]
  have h := (c2_force_refresh_hits_cache stW (pstr "Tehran") 1000000 1 geoW wxW 35 51
    (by decide) hgeo rfl rfl rfl hwx (by norm_num) rfl (Or.inl rfl)).2
  exact h.trans rfl

/-- C3: under a well-formed cached geocode state, `fetch_and_render` renders
a cached snapshot synchronously (rather than dispatching) exactly when the
forecast lookup yields a truthy payload and (the air-quality lookup yields a
truthy payload or `show_aqi` is off); in particular a cached geocode and
forecast with `show_aqi` on and no fresh air-quality entry dispatches a
network fetch. -/
theorem c3_cache_hit_iff_complete (st : Storage) (text : PyStr)
    (force_refresh : Bool) (now : ℚ) (g w a : Option Json)
    (hcity : pyStrip text ≠ [])
    (hlk : cache_lookups st (pyStrip text) force_refresh now
      = LookupState.ok g w a) :
    ((∃ g' w' a', fetch_and_render st text force_refresh now
        = Decision.cacheHit g' w' a')
      ↔ (truthyOpt w = true
          ∧ (truthyOpt a = true ∨ st.settings.show_aqi = false)))
    ∧ (st.settings.show_aqi = true → truthyOpt w = true → a = none →
        fetch_and_render st text force_refresh now
          = Decision.dispatch (pyStrip text) st.settings.units true) := by
  have hfr : fetch_and_render st text force_refresh now =
      if truthyOpt w && (truthyOpt a || !st.settings.show_aqi) then
        Decision.cacheHit (g.getD Json.null) (w.getD Json.null) (pyOrEmpty a)
      else Decision.dispatch (pyStrip text) st.settings.units
        st.settings.show_aqi := by
    simp only [fetch_and_render, if_neg hcity, hlk]
  constructor
  · constructor
    · rintro ⟨g', w', a', h⟩
      rw [hfr] at h
      cases hb : (truthyOpt w && (truthyOpt a || !st.settings.show_aqi)) with
      | false =>
        rw [hb] at h
        simp at h
      | true =>
        simp only [Bool.and_eq_true, Bool.or_eq_true, Bool.not_eq_true'] at hb
        exact hb
    · rintro ⟨hw, hor⟩
      have hb : (truthyOpt w && (truthyOpt a || !st.settings.show_aqi)) = true := by
        rcases hor with h | h <;> simp [hw, h]
      refine ⟨g.getD Json.null, w.getD Json.null, pyOrEmpty a, ?_⟩
      rw [hfr, hb]
      rfl
  · intro hshow hw ha
    subst ha
    rw [hfr]
    have hb : (truthyOpt w && (truthyOpt (none : Option Json)
        || !st.settings.show_aqi)) = false := by
      simp [truthyOpt, hshow]
    rw [hb, hshow]
    rfl

/-- Witness fixtures for the completeness gate: fresh geocode and forecast,
air-quality display enabled, no air-quality cache entry. -/
def cacheW3 : PyStr → Option CacheEntry := fun k =>
  if k = geoKey (pstr "tehran") then some ⟨some 999940, some geoW⟩
  else if k = wxKey 35 51 (pstr "metric") then some ⟨some 999940, some wxW⟩
  else none

def stW3 : Storage := ⟨⟨pstr "metric", true, 20⟩, cacheW3, []⟩

/-- Concrete instantiation of `c3_cache_hit_iff_complete`: cached geocode and
one-minute-old forecast, `show_aqi = true`, missing air-quality entry — the
call dispatches a fetch instead of hitting the cache. -/
theorem c3_witness :
    fetch_and_render stW3 (pstr "Tehran") false 1000000
      = Decision.dispatch (pstr "Tehran") (pstr "metric") true := by
  have hgeo : get_cached stW3.cache (geoKey (pyStrip (pstr "Tehran"))) 1440 1000000
      = some geoW := by
    apply get_cached_eval
    · have hk : geoKey (pyStrip (pstr "Tehran")) = geoKey (pstr "tehran") := by decide
      show cacheW3 (geoKey (pyStrip (pstr "Tehran"))) = _
      rw [hk]
      unfold cacheW3
      rw [if_pos rfl]
    · norm_num
    · intro hc
      exact absurd hc.2 (by norm_num)
  have hwxl : get_cached stW3.cache (wxKey 35 51 stW3.settings.units)
      (effective_ttl false stW3.settings.cache_ttl_minutes) 1000000 = some wxW := by
    apply get_cached_eval
    · show cacheW3 (wxKey 35 51 (pstr "metric")) = _
      unfold cacheW3
      rw [if_neg (fun h => geoKey_ne_wxKey (pstr "tehran") 35 51 (pstr "metric") h.symm),
        if_pos rfl]
    · norm_num
    · intro hc
      have he : effective_ttl false stW3.settings.cache_ttl_minutes = 20 := rfl
      rw [he] at hc
      exact absurd hc.2 (by norm_num)
  have haql : get_cached stW3.cache (aqiKey 35 51) 60 1000000 = none := by
    apply get_cached_none
    show cacheW3 (aqiKey 35 51) = none
    unfold cacheW3
    rw [if_neg (aqiKey_ne_geoKey (pstr "tehran") 35 51),
      if_neg (aqiKey_ne_wxKey 35 51 35 51 (pstr "metric"))]
  have hlk : cache_lookups stW3 (pyStrip (pstr "Tehran")) false 1000000
      = LookupState.ok (some geoW) (some wxW) none := by
    rw [cache_lookups_eval stW3 (pyStrip (pstr "Tehran")) false 1000000 geoW 35 51
      hgeo rfl rfl rfl, hwxl,
      if_pos (show stW3.settings.show_aqi = true from rfl), haql]
  exact (c3_cache_hit_iff_complete stW3 (pstr "Tehran") false 1000000
    (some geoW) (some wxW) none (by decide) hlk).2 rfl rfl rfl

/-- C4: an empty geocode result array makes the worker fail with
place-not-found, a non-404 forecast failure makes it fail with the service
error, and a failed worker applies no storage mutation at all — cache and
history are exactly the state before the call. -/
theorem c4_failure_no_mutation (wxResp aqiResp : HttpResp) (show_aqi : Bool) :
    (worker_run (HttpResp.ok (Json.arr [])) wxResp aqiResp show_aqi
      = WorkerResult.failed FetchErr.placeNotFound)
    ∧ (∀ (st : Storage) (text : PyStr) (e : FetchErr) (now : ℚ),
        apply_worker_result st text (WorkerResult.failed e) now = st)
    ∧ (∀ (item : Json) (rest : List Json) (lat lon : ℚ) (code : ℕ) (msg : PyStr),
        item.get (pstr "lat") = some (Json.num lat) →
        item.get (pstr "lon") = some (Json.num lon) →
        code ≠ 404 →
        worker_run (HttpResp.ok (Json.arr (item :: rest)))
          (HttpResp.status code msg) aqiResp show_aqi
          = WorkerResult.failed (FetchErr.serviceError code msg)) := by
  refine ⟨rfl, fun st text e now => rfl, ?_⟩
  intro item rest lat lon code msg hlat hlon hcode
  simp [worker_run, http_get, Json.truthy, hlat, hlon, hcode]

/-- Concrete instantiation of `c4_failure_no_mutation`: an empty geocode
array for a bogus name fails with not-found, the failure leaves a concrete
storage untouched, and a 500 forecast response fails with the service
error. -/
theorem c4_witness :
    worker_run (HttpResp.ok (Json.arr [])) (HttpResp.ok Json.null)
      (HttpResp.ok Json.null) true
      = WorkerResult.failed FetchErr.placeNotFound
    ∧ apply_worker_result ⟨⟨pstr "metric", true, 20⟩, fun _ => none, []⟩
        (pstr "Zzzxyqq") (WorkerResult.failed FetchErr.placeNotFound) 5
      = ⟨⟨pstr "metric", true, 20⟩, fun _ => none, []⟩
    ∧ worker_run
        (HttpResp.ok (Json.arr
          [Json.obj [(pstr "lat", Json.num 35), (pstr "lon", Json.num 51)]]))
        (HttpResp.status 500 (pstr "boom")) (HttpResp.ok Json.null) true
      = WorkerResult.failed (FetchErr.serviceError 500 (pstr "boom")) := by
  refine ⟨?_, ?_, ?_⟩
  · exact (c4_failure_no_mutation (HttpResp.ok Json.null) (HttpResp.ok Json.null) true).1
  · exact (c4_failure_no_mutation (HttpResp.ok Json.null) (HttpResp.ok Json.null) true).2.1
      ⟨⟨pstr "metric", true, 20⟩, fun _ => none, []⟩ (pstr "Zzzxyqq")
      FetchErr.placeNotFound 5
  · exact (c4_failure_no_mutation (HttpResp.status 500 (pstr "boom"))
      (HttpResp.ok Json.null) true).2.2
      (Json.obj [(pstr "lat", Json.num 35), (pstr "lon", Json.num 51)]) [] 35 51 500
      (pstr "boom") rfl rfl (by decide)

/-- C5: with geocode and forecast succeeding and the air-quality service
answering 500, the worker still succeeds and delivers a snapshot whose
air-quality component is the empty dict (absent); applying the completion
writes the geocode and forecast entries to the cache and writes no
air-quality entry for those coordinates. -/
theorem c5_aqi_failure_tolerated (st : Storage) (text : PyStr) (now : ℚ)
    (item wxBody : Json) (rest : List Json) (lat lon : ℚ) (msg : PyStr)
    (hlat : item.get (pstr "lat") = some (Json.num lat))
    (hlon : item.get (pstr "lon") = some (Json.num lon))
    (haqi0 : st.cache (aqiKey lat lon) = none) :
    worker_run (HttpResp.ok (Json.arr (item :: rest))) (HttpResp.ok wxBody)
      (HttpResp.status 500 msg) true
      = WorkerResult.done (geo_payload item lat lon) wxBody (Json.obj [])
    ∧ (apply_worker_result st text
        (WorkerResult.done (geo_payload item lat lon) wxBody (Json.obj [])) now).cache
        (geoKey (pyStrip text))
      = some ⟨some now, some (geo_payload item lat lon)⟩
    ∧ (apply_worker_result st text
        (WorkerResult.done (geo_payload item lat lon) wxBody (Json.obj [])) now).cache
        (wxKey lat lon st.settings.units)
      = some ⟨some now, some wxBody⟩
    ∧ (apply_worker_result st text
        (WorkerResult.done (geo_payload item lat lon) wxBody (Json.obj [])) now).cache
        (aqiKey lat lon)
      = none := by
  have hplat : (geo_payload item lat lon).get (pstr "lat") = some (Json.num lat) := rfl
  have hplon : (geo_payload item lat lon).get (pstr "lon") = some (Json.num lon) := rfl
  refine ⟨?_, ?_, ?_, ?_⟩
  · simp [worker_run, http_get, Json.truthy, hlat, hlon]
  · simp only [apply_worker_result, on_fetch_done, hplat, hplon, Json.truthy,
      List.isEmpty_nil, Bool.not_true, Bool.and_false, Bool.false_eq_true,
      if_false, set_cached]
    simp
    intro h
    exact absurd h (geoKey_ne_wxKey (pyStrip text) lat lon st.settings.units)
  · simp only [apply_worker_result, on_fetch_done, hplat, hplon, Json.truthy,
      List.isEmpty_nil, Bool.not_true, Bool.and_false, Bool.false_eq_true,
      if_false, set_cached]
    simp
  · simp only [apply_worker_result, on_fetch_done, hplat, hplon, Json.truthy,
      List.isEmpty_nil, Bool.not_true, Bool.and_false, Bool.false_eq_true,
      if_false, set_cached]
    rw [if_neg (aqiKey_ne_wxKey lat lon lat lon st.settings.units),
      if_neg (aqiKey_ne_geoKey (pyStrip text) lat lon)]
    exact haqi0

/-- Concrete instantiation of `c5_aqi_failure_tolerated`: geocode and
forecast succeed, the air-quality service answers 500, the worker delivers
the snapshot with an empty air-quality component, and afterwards the cache
still has no air-quality entry for those coordinates. -/
theorem c5_witness :
    worker_run
      (HttpResp.ok (Json.arr
        [Json.obj [(pstr "lat", Json.num 35), (pstr "lon", Json.num 51)]]))
      (HttpResp.ok wxW) (HttpResp.status 500 (pstr "boom")) true
      = WorkerResult.done
          (geo_payload (Json.obj [(pstr "lat", Json.num 35), (pstr "lon", Json.num 51)])
            35 51) wxW (Json.obj [])
    ∧ (apply_worker_result stW3 (pstr "Qom")
        (WorkerResult.done
          (geo_payload (Json.obj [(pstr "lat", Json.num 35), (pstr "lon", Json.num 51)])
            35 51) wxW (Json.obj [])) 7).cache (aqiKey 35 51) = none := by
  have haqi0 : stW3.cache (aqiKey 35 51) = none := by
    show cacheW3 (aqiKey 35 51) = none
    unfold cacheW3
    rw [if_neg (aqiKey_ne_geoKey (pstr "tehran") 35 51),
      if_neg (aqiKey_ne_wxKey 35 51 35 51 (pstr "metric"))]
  have h := c5_aqi_failure_tolerated stW3 (pstr "Qom") 7
    (Json.obj [(pstr "lat", Json.num 35), (pstr "lon", Json.num 51)]) wxW [] 35 51
    (pstr "boom") rfl rfl haqi0
  exact ⟨h.1, h.2.2.2⟩
